import Mathlib

/-!
# Shallow embedding of the flynn installer core and the basic stream

This file embeds, in Lean 4, the code of `installer/installer.go` and
`pkg/stream/basic_stream.go`. Pure data becomes structures, the mutable
`Installer` state becomes an explicit `Installer` record threaded through the
operations, fallible calls return `Except`, and the database transaction is
modelled as a pending view that is either committed or discarded (rollback).
Failures of the external storage engine (marshal, compile, begin, exec,
commit) are injected through explicit oracle records, so that every
error-handling path of the Go code is reachable in the model.

Types that the embedded functions use but whose Go definitions are not part
of the sources at hand (`Cluster`, `AWSCluster`, `Event`, `SendEvent`,
`SetDefaultsAndValidate`, the aws credential providers) are modelled from the
specification, as noted on each such definition.
-/

set_option autoImplicit false

namespace Flynn

/-! ## Data model -/

/-- A `domains` table row: `domains(ClusterID, Name, Token)`. -/
structure Domain where
  ClusterID : String
  Name : String
  Token : String
deriving DecidableEq, Repr

/-- Modelled from the spec: the generic `Cluster` entity (its Go struct is
defined outside the sources at hand). Fields follow the persisted schema
`clusters(ID, CredentialID, Type, State, NumInstances, ControllerKey,
ControllerPin, DashboardLoginToken, CACert, SSHKeyName, VpcCidr, SubnetCidr,
DiscoveryToken, DNSZoneID)` plus the optional attached `Domain` (0..1 per
cluster, not a column of `clusters`). The Go field `Type` is rendered
`ClusterType` because `Type` is reserved in Lean. -/
structure Cluster where
  ID : String
  CredentialID : String
  ClusterType : String
  State : String
  NumInstances : Nat
  ControllerKey : String
  ControllerPin : String
  DashboardLoginToken : String
  CACert : String
  SSHKeyName : String
  VpcCidr : String
  SubnetCidr : String
  DiscoveryToken : String
  DNSZoneID : String
  DomainOpt : Option Domain
deriving DecidableEq, Repr

/-- Modelled from the spec: the provider-specific `AWSCluster` (its Go struct
is outside the sources at hand). It wraps exactly one generic `Cluster`
(back-reference `cluster`) and carries its own `ClusterID` field, which is the
field `installer.go` reads during the registry scan (`cluster.ClusterID`).
Provider-only fields are irrelevant to every claim and omitted. -/
structure AWSCluster where
  ClusterID : String
  cluster : Cluster
deriving DecidableEq, Repr

/-- A `credentials` table row: `credentials(ID, Secret)`. -/
structure CredRow where
  ID : String
  Secret : String
deriving DecidableEq, Repr

/-- The durable storage: one list of rows per table of the logical schema.
Row order is insertion order; single-row reads take the first match
(`LIMIT 1`). -/
structure Storage where
  clusters : List Cluster
  awsClusters : List AWSCluster
  domains : List Domain
  credentials : List CredRow
deriving DecidableEq, Repr

/-- Modelled from the spec: an `Event` has a type tag, an optional associated
cluster and a cluster id. The Go field `Type` is rendered `EventType`. -/
structure Event where
  EventType : String
  Cluster : Option Cluster
  ClusterID : String
deriving DecidableEq, Repr

/-- An entry of the heterogeneous in-memory registry (`[]interface{}` in Go):
either a recognized `*AWSCluster`, or a value of some other concrete type,
kept abstract as its type name together with the string `ID` field that
`DeleteCluster` extracts by reflection. -/
inductive RegEntry where
  | aws (c : AWSCluster)
  | other (typeName : String) (id : String)
deriving DecidableEq, Repr

/-- The mutable state of the `Installer` (events log, registry, storage).
Subscriptions carry no claim and are omitted; the locks guard the three
components and are not part of the sequential state. -/
structure Installer where
  events : List Event
  clusters : List RegEntry
  storage : Storage
deriving DecidableEq, Repr

/-! ## Errors -/

/-- Errors surfaced by the storage engine and driver. `noRows` is
`sql.ErrNoRows`, the distinguishable single-row-read miss; the others wrap the
failures of marshal, compile, begin, exec and commit. -/
inductive DBErr where
  | noRows
  | marshalErr
  | compileErr
  | beginErr
  | execErr
  | commitErr
deriving DecidableEq, Repr

/-- The errors of the installer package. `clusterNotFound` embeds the
declared `ClusterNotFoundError` variable; `invalidClusterType t` is the
`fmt.Errorf("Invalid cluster type %T", c)` value (the spec's
`UnsupportedTypeError`); `validationErr` comes from
`SetDefaultsAndValidate`; `dbErr` wraps a storage error returned unchanged;
`envCredsErr` is the failure of `aws.EnvCreds()`. -/
inductive InstallerErr where
  | clusterNotFound
  | invalidClusterType (t : String)
  | validationErr (msg : String)
  | dbErr (e : DBErr)
  | envCredsErr
deriving DecidableEq, Repr

/-! ## Step labels

The synchronous launch path is instrumented with a trace of the steps it
performs, in the order it performs them, so that the ordering contract of
`launchAWSCluster` can be stated. `provisioningReady` and
`provisioningFailed` belong to the asynchronous provisioning task spawned by
`Run()`; the synchronous path never emits them. -/

/-- One step of the launch lifecycle, as observed on the synchronous path. -/
inductive Action where
  | validated
  | persisted
  | registered
  | emittedNewCluster (id : String)
  | runStarted
  | provisioningReady (id : String)
  | provisioningFailed (id : String)
deriving DecidableEq, Repr

/-! ## Event bus (log append) -/

/-- Modelled from the spec: `SendEvent` (defined outside the sources at hand)
appends the event to the process-lifetime event log under the events lock and
fans out to every live subscription without blocking. Only the log append is
state the claims observe. -/
def sendEvent (i : Installer) (e : Event) : Installer :=
  { i with events := i.events ++ [e] }

/-! ## Persistence: `saveAWSCluster` and `SaveAWSCredentials` -/

/-- Injected failure points of `saveAWSCluster`, one per fallible call of the
Go function: the two `ql.Marshal` calls, `ql.Compile`, `db.Begin()`, the
`tx.Exec` of each of the two compiled INSERT statements, and `tx.Commit()`. -/
structure SaveOracle where
  marshalClusterErr : Bool
  marshalAWSErr : Bool
  compileErr : Bool
  beginErr : Bool
  execClustersErr : Bool
  execAWSErr : Bool
  commitErr : Bool
deriving DecidableEq, Repr

/-- The all-succeed oracle. -/
def SaveOracle.ok : SaveOracle :=
  ⟨false, false, false, false, false, false, false⟩

/-- Go `saveAWSCluster`: marshals the generic cluster and the AWS record, compiles
`INSERT INTO clusters ...; INSERT INTO aws_clusters ...;`, and executes both
inserts in one transaction. The transaction is a pending copy of the storage:
each insert appends to the pending copy; a failure rolls back (the original
storage is kept); `Commit` installs the pending copy. Returns the first error
together with the storage afterwards. -/
def saveAWSCluster (o : SaveOracle) (st : Storage) (c : AWSCluster) :
    Except DBErr Unit × Storage :=
  if o.marshalClusterErr then (.error .marshalErr, st)
  else if o.marshalAWSErr then (.error .marshalErr, st)
  else if o.compileErr then (.error .compileErr, st)
  else if o.beginErr then (.error .beginErr, st)
  else if o.execClustersErr then (.error .execErr, st)
  else
    let pending : Storage := { st with clusters := st.clusters ++ [c.cluster] }
    if o.execAWSErr then (.error .execErr, st)
    else
      let pending : Storage :=
        { pending with awsClusters := pending.awsClusters ++ [c] }
      if o.commitErr then (.error .commitErr, st)
      else (.ok (), pending)

/-- Injected failure points of `SaveAWSCredentials`: `db.Begin()`, the
`tx.Exec` of the single INSERT, and `tx.Commit()`. -/
structure CredOracle where
  beginErr : Bool
  execErr : Bool
  commitErr : Bool
deriving DecidableEq, Repr

/-- The all-succeed credentials oracle. -/
def CredOracle.ok : CredOracle :=
  ⟨false, false, false⟩

/-- Go `SaveAWSCredentials(id, secret)`: one transaction around
`INSERT INTO credentials (ID, Secret) VALUES ($1, $2)`; a failed exec rolls
back, commit installs the appended row. -/
def SaveAWSCredentials (o : CredOracle) (st : Storage) (id secret : String) :
    Except DBErr Unit × Storage :=
  if o.beginErr then (.error .beginErr, st)
  else if o.execErr then (.error .execErr, st)
  else if o.commitErr then (.error .commitErr, st)
  else (.ok (), { st with credentials := st.credentials ++ [⟨id, secret⟩] })

/-! ## Credentials lookup -/

/-- Modelled from the spec: a credential provider is either environment-backed
(`aws.EnvCreds()`) or static (`aws.Creds(id, secret, token)`). -/
inductive CredsProvider where
  | envCreds (accessKeyID : String) (secretAccessKey : String)
  | staticCreds (id : String) (secret : String) (token : String)
deriving DecidableEq, Repr

/-- Modelled from the spec: the host environment state that `aws.EnvCreds()`
reads. -/
structure Env where
  accessKeyID : String
  secretAccessKey : String
deriving DecidableEq, Repr

/-- Modelled from the spec: `aws.EnvCreds()` builds credentials from the host
environment alone and fails when the environment lacks them. -/
def envCreds (env : Env) : Except InstallerErr CredsProvider :=
  if env.accessKeyID = "" ∨ env.secretAccessKey = "" then .error .envCredsErr
  else .ok (.envCreds env.accessKeyID env.secretAccessKey)

/-- Go `FindAWSCredentials(id)`: the reserved id `"aws_env"` resolves from the
host environment without touching storage; any other id is looked up by a
`SELECT Secret FROM credentials WHERE id == $1 LIMIT 1` (first matching row),
a miss surfacing the driver's no-rows error, a hit yielding
`aws.Creds(id, secret, "")`. The second component records whether a storage
read was performed. -/
def FindAWSCredentials (env : Env) (st : Storage) (id : String) :
    Except InstallerErr CredsProvider × Bool :=
  if id = "aws_env" then (envCreds env, false)
  else
    match st.credentials.find? (fun r => r.ID == id) with
    | none => (.error (.dbErr .noRows), true)
    | some r => (.ok (.staticCreds id r.Secret ""), true)

/-! ## `FindCluster` -/

/-- The registry scan of `FindCluster`: walk the heterogeneous list, consider
only entries that are `*AWSCluster`, and return the embedded generic cluster
of the first one whose `ClusterID` field equals `id`. -/
def registryLookup : List RegEntry → String → Option Cluster
  | [], _ => none
  | .aws c :: rest, id =>
      if c.ClusterID == id then some c.cluster else registryLookup rest id
  | .other _ _ :: rest, id => registryLookup rest id

/-- Go `FindCluster(id)`: registry scan first (no storage read on a hit); on a
miss, reconstruct the cluster from the first `clusters` row with this `ID`
(a miss of that single-row read surfaces the driver's no-rows error), then
attach the optional `domains` row with this `ClusterID`. -/
def FindCluster (i : Installer) (id : String) : Except InstallerErr Cluster :=
  match registryLookup i.clusters id with
  | some c => .ok c
  | none =>
    match i.storage.clusters.find? (fun r => r.ID == id) with
    | none => .error (.dbErr .noRows)
    | some row =>
      let dom := i.storage.domains.find? (fun d => d.ClusterID == id)
      .ok { row with ID := id, DomainOpt := dom }

/-! ## `DeleteCluster` -/

/-- The string `ID` field that `DeleteCluster` extracts from a registry entry
via `reflect ... FieldByName("ID")`. Modelled from the spec for the
`*AWSCluster` entries (the struct is outside the sources at hand): removal is
by the aggregate's identity, the embedded generic cluster's `ID`. -/
def RegEntry.reflectID : RegEntry → String
  | .aws c => c.cluster.ID
  | .other _ id => id

/-- Go `DeleteCluster(id)`: first confirms existence through `FindCluster`
(propagating its error); then rebuilds the registry keeping exactly the
entries whose reflected `ID` differs from `id`; finally emits a
`cluster_deleted` event. Persisted rows are not touched. -/
def DeleteCluster (i : Installer) (id : String) :
    Except InstallerErr Unit × Installer :=
  match FindCluster i id with
  | .error e => (.error e, i)
  | .ok _ =>
    let i : Installer :=
      { i with clusters := i.clusters.filter (fun c => c.reflectID != id) }
    (.ok (), sendEvent i { EventType := "cluster_deleted", Cluster := none,
                           ClusterID := id })

/-! ## `LaunchCluster` -/

/-- Go `launchAWSCluster`: validate and fill defaults (the
`SetDefaultsAndValidate` method is outside the sources at hand, so it is a
parameter `validate`, returning either a validation-error message or the
cluster with defaults applied); durably save; append to the registry; emit a
`new_cluster` event carrying the generic cluster and its `ID`; start the
asynchronous provisioning task `c.Run()` (a fire-and-forget spawn, recorded
in the trace only); return. The third component is the trace of completed
steps in order. -/
def launchAWSCluster (validate : AWSCluster → Except String AWSCluster)
    (o : SaveOracle) (i : Installer) (c : AWSCluster) :
    Except InstallerErr Unit × Installer × List Action :=
  match validate c with
  | .error msg => (.error (.validationErr msg), i, [])
  | .ok c =>
    match saveAWSCluster o i.storage c with
    | (.error e, st) => (.error (.dbErr e), { i with storage := st },
                         [.validated])
    | (.ok _, st) =>
      let i : Installer := { i with storage := st }
      let i : Installer := { i with clusters := i.clusters ++ [.aws c] }
      let i : Installer :=
        sendEvent i { EventType := "new_cluster", Cluster := some c.cluster,
                      ClusterID := c.cluster.ID }
      (.ok (), i,
       [.validated, .persisted, .registered,
        .emittedNewCluster c.cluster.ID, .runStarted])

/-- A launch request: the `interface{}` argument of `LaunchCluster`, either a
recognized `*AWSCluster` or a value of some other concrete type, kept
abstract as its type name. -/
inductive LaunchRequest where
  | aws (c : AWSCluster)
  | other (typeName : String)
deriving DecidableEq, Repr

/-- Go `LaunchCluster(c)`: dispatch on the concrete type of the request; an
`*AWSCluster` goes to `launchAWSCluster`, anything else fails with
`Invalid cluster type %T` and performs nothing. -/
def LaunchCluster (validate : AWSCluster → Except String AWSCluster)
    (o : SaveOracle) (i : Installer) :
    LaunchRequest → Except InstallerErr Unit × Installer × List Action
  | .aws c => launchAWSCluster validate o i c
  | .other t => (.error (.invalidClusterType t), i, [])

/-! ## Well-formedness and sample values -/

/-- The spec's data-model invariant on a registry entry: a provider-specific
cluster wraps exactly one generic `Cluster` and both carry the aggregate's
identity, so an `*AWSCluster` entry's `ClusterID` agrees with its embedded
generic cluster's `ID`. -/
def RegEntry.wf : RegEntry → Bool
  | .aws c => c.ClusterID == c.cluster.ID
  | .other _ _ => true

/-- A concrete generic cluster used to instantiate the theorems. -/
def sampleCluster : Cluster :=
  { ID := "c1", CredentialID := "cred1", ClusterType := "aws",
    State := "starting", NumInstances := 1, ControllerKey := "ck",
    ControllerPin := "cp", DashboardLoginToken := "dt", CACert := "ca",
    SSHKeyName := "ssh", VpcCidr := "10.0.0.0/16",
    SubnetCidr := "10.0.0.0/21", DiscoveryToken := "disc", DNSZoneID := "z1",
    DomainOpt := none }

/-- A concrete AWS cluster wrapping `sampleCluster`. -/
def sampleAWS : AWSCluster :=
  { ClusterID := "c1", cluster := sampleCluster }

/-- Storage with all four tables empty. -/
def emptyStorage : Storage :=
  ⟨[], [], [], []⟩

/-- An installer with no events, an empty registry and empty storage. -/
def emptyInstaller : Installer :=
  ⟨[], [], emptyStorage⟩

/-- An installer whose registry holds `sampleAWS` and one entry of an
unrecognized concrete type. -/
def sampleInstaller : Installer :=
  ⟨[], [.aws sampleAWS, .other "X" "c2"], emptyStorage⟩

end Flynn

namespace Stream

/-! ## `pkg/stream/basic_stream.go`

`Basic` holds a stop channel, an error field, and an atomically stored
`closed` flag set under a `sync.Once`. The channel is modelled by whether it
has been closed; errors are abstracted to `Option String`. -/

/-- The `Basic` stream state: `StopCh` as its closed/open status, the `Error`
field, and the `closed` atomic flag. -/
structure Basic where
  stopChClosed : Bool
  Error : Option String
  closed : Bool
deriving DecidableEq, Repr

/-- Go `New()`: allocates a `Basic` with a fresh (open) `StopCh`, stores `false`
in the `closed` atomic, and leaves `Error` at its zero value `nil`. -/
def New : Basic :=
  { stopChClosed := false, Error := none, closed := false }

/-- Go `Close()`: under the `sync.Once`, stores `true` in `closed` and closes
`StopCh`; always returns `nil`. -/
def Close (s : Basic) : Basic :=
  if s.closed then s else { s with closed := true, stopChClosed := true }

/-- Go `IsClosed()`: loads the `closed` atomic. -/
def IsClosed (s : Basic) : Bool :=
  s.closed

/-- Go `Err()`: returns the `Error` field. -/
def Err (s : Basic) : Option String :=
  s.Error

end Stream

namespace Flynn

/-! ## Helper lemmas -/

/-- A save that returns an error leaves the storage unchanged: every failure
path of `saveAWSCluster` returns the pre-transaction storage (rollback). -/
theorem saveAWSCluster_error_frame (o : SaveOracle) (st : Storage)
    (c : AWSCluster) (e : DBErr) (h : (saveAWSCluster o st c).1 = .error e) :
    (saveAWSCluster o st c).2 = st := by
  rcases o with ⟨m1, m2, cp, bg, e1, e2, cm⟩
  cases m1 <;> cases m2 <;> cases cp <;> cases bg <;> cases e1 <;> cases e2
    <;> cases cm <;> simp_all [saveAWSCluster]

/-- The registry scan misses when no `*AWSCluster` entry carries the id. -/
theorem registryLookup_eq_none (l : List RegEntry) (id : String)
    (h : ∀ c : AWSCluster, RegEntry.aws c ∈ l → c.ClusterID ≠ id) :
    registryLookup l id = none := by
  induction l with
  | nil => rfl
  | cons e rest ih =>
    cases e with
    | aws c =>
      have hc : (c.ClusterID == id) = false := by
        simpa using h c (List.mem_cons_self _ _)
      simp only [registryLookup, hc, if_false]
      exact ih (fun c2 hm => h c2 (List.mem_cons_of_mem _ hm))
    | other t oid =>
      simpa [registryLookup] using
        ih (fun c2 hm => h c2 (List.mem_cons_of_mem _ hm))

/-- Applying `find?` to a list with no match followed by one matching element finds
that element. -/
theorem find_first_fresh {α : Type} (p : α → Bool) (l : List α) (x : α)
    (h : ∀ a ∈ l, p a = false) (hx : p x = true) :
    (l ++ [x]).find? p = some x := by
  induction l with
  | nil => simp [List.find?, hx]
  | cons a rest ih =>
    have ha : p a = false := h a (List.mem_cons_self _ _)
    simp only [List.cons_append, List.find?, ha]
    exact ih (fun b hb => h b (List.mem_cons_of_mem _ hb))

end Flynn

namespace Flynn

/-! ## Claim theorems -/

/-- C6: for every launch request whose concrete type is not a recognized
provider variant, `LaunchCluster` fails with the invalid-cluster-type error
(`UnsupportedTypeError`), the installer state is unchanged (no persistence,
no registration, no event emission), and no step of the launch lifecycle is
performed. -/
theorem launchCluster_unsupported_type
    (validate : AWSCluster → Except String AWSCluster) (o : SaveOracle)
    (i : Installer) (t : String) :
    LaunchCluster validate o i (.other t) =
      (.error (.invalidClusterType t), i, []) :=
  rfl

/-- C8: `FindAWSCredentials` on the reserved identifier `"aws_env"` resolves
from the host environment alone — the result is `aws.EnvCreds()` of the
environment, the same for every storage, and no storage read is performed. -/
theorem findAWSCredentials_reserved_env (env : Env) (st : Storage) :
    FindAWSCredentials env st "aws_env" = (envCreds env, false) :=
  rfl

/-- C4: a launch request that fails validation makes `LaunchCluster` return a
`ValidationError`, leaves the installer (storage, registry, events) exactly
unchanged — in particular the registry length is the same — and performs no
lifecycle step. -/
theorem launchCluster_validation_failure
    (validate : AWSCluster → Except String AWSCluster) (o : SaveOracle)
    (i : Installer) (c : AWSCluster) (msg : String)
    (hv : validate c = .error msg) :
    LaunchCluster validate o i (.aws c) =
      (.error (.validationErr msg), i, []) ∧
    (LaunchCluster validate o i (.aws c)).2.1.clusters.length =
      i.clusters.length := by
  refine ⟨?_, ?_⟩ <;> simp [LaunchCluster, launchAWSCluster, hv]

/-- Witness for C4: a validator rejecting a request with a missing credential
id makes `LaunchCluster` fail with `ValidationError` on the empty installer,
whose registry length stays 0. -/
theorem launchCluster_validation_failure_witness :
    LaunchCluster (fun _ => .error "missing credential id") SaveOracle.ok
        emptyInstaller (.aws sampleAWS) =
      (.error (.validationErr "missing credential id"), emptyInstaller, []) ∧
    (LaunchCluster (fun _ => .error "missing credential id") SaveOracle.ok
        emptyInstaller (.aws sampleAWS)).2.1.clusters.length =
      emptyInstaller.clusters.length :=
  launchCluster_validation_failure _ _ _ _ _ rfl

/-- C2: for every launch request that passes validation and whose durable
save succeeds, `launchAWSCluster` performs its steps in this strict order —
validated, persisted (the storage write), registered (appended to the
registry), `new_cluster` emitted, provisioning task started — and returns
`ok` with the state exactly as it was after emission, so it does not wait
for provisioning to reach Ready or Failed. -/
theorem launchAWSCluster_order
    (validate : AWSCluster → Except String AWSCluster) (o : SaveOracle)
    (i : Installer) (c c2 : AWSCluster)
    (hv : validate c = .ok c2)
    (hs : (saveAWSCluster o i.storage c2).1 = .ok ()) :
    launchAWSCluster validate o i c =
      (.ok (),
       { events := i.events ++
           [{ EventType := "new_cluster", Cluster := some c2.cluster,
              ClusterID := c2.cluster.ID }],
         clusters := i.clusters ++ [.aws c2],
         storage := (saveAWSCluster o i.storage c2).2 },
       [.validated, .persisted, .registered,
        .emittedNewCluster c2.cluster.ID, .runStarted]) := by
  rcases hsave : saveAWSCluster o i.storage c2 with ⟨r, st⟩
  rw [hsave] at hs
  simp only at hs
  subst hs
  unfold launchAWSCluster
  rw [hv]
  dsimp only
  rw [hsave]
  simp [sendEvent]

/-- Witness for C2: launching `sampleAWS` on the empty installer with an
accepting validator and the all-succeed oracle yields exactly the ordered
trace and the post-emission state. -/
theorem launchAWSCluster_order_witness :
    launchAWSCluster (fun c => .ok c) SaveOracle.ok emptyInstaller
        sampleAWS =
      (.ok (),
       { events := emptyInstaller.events ++
           [{ EventType := "new_cluster", Cluster := some sampleAWS.cluster,
              ClusterID := sampleAWS.cluster.ID }],
         clusters := emptyInstaller.clusters ++ [.aws sampleAWS],
         storage :=
           (saveAWSCluster SaveOracle.ok emptyInstaller.storage
             sampleAWS).2 },
       [.validated, .persisted, .registered,
        .emittedNewCluster sampleAWS.cluster.ID, .runStarted]) :=
  launchAWSCluster_order _ _ _ _ _ rfl rfl

end Flynn

namespace Stream

/-- C10: a stream freshly created by `New()` is open: `IsClosed()` is
`false`, `Err()` is `nil`, and the `StopCh` channel is not closed. -/
theorem new_stream_open :
    IsClosed New = false ∧ Err New = none ∧ New.stopChClosed = false :=
  ⟨rfl, rfl, rfl⟩

end Stream

namespace Flynn

/-- C9: when validation passes but the durable save fails (marshal, compile,
begin, or exec error), `launchAWSCluster` returns that error wrapped
unchanged, the installer is exactly as before (nothing appended to the
registry, no event emitted), and the trace shows no registration, emission or
provisioning start. -/
theorem launchAWSCluster_save_failure
    (validate : AWSCluster → Except String AWSCluster) (o : SaveOracle)
    (i : Installer) (c c2 : AWSCluster) (e : DBErr)
    (hv : validate c = .ok c2)
    (hs : (saveAWSCluster o i.storage c2).1 = .error e) :
    launchAWSCluster validate o i c =
      (.error (.dbErr e), i, [.validated]) := by
  have hframe := saveAWSCluster_error_frame o i.storage c2 e hs
  rcases hsave : saveAWSCluster o i.storage c2 with ⟨r, st⟩
  rw [hsave] at hs hframe
  simp only at hs hframe
  subst hs
  subst hframe
  unfold launchAWSCluster
  rw [hv]
  dsimp only
  rw [hsave]

/-- Witness for C9: with an injected failure on the second insert, launching
`sampleAWS` on the empty installer returns the wrapped exec error and changes
nothing. -/
theorem launchAWSCluster_save_failure_witness :
    launchAWSCluster (fun c => .ok c)
        ⟨false, false, false, false, false, true, false⟩ emptyInstaller
        sampleAWS =
      (.error (.dbErr .execErr), emptyInstaller, [.validated]) :=
  launchAWSCluster_save_failure _ _ _ _ _ _ rfl rfl

/-- C3: the two inserts of a cluster save run in one transaction — when the
second table's (`aws_clusters`) insert fails, the transaction is rolled back:
the save returns the exec error, the storage is exactly the pre-save storage,
and (the id being fresh beforehand, per the global-uniqueness invariant) zero
rows for that cluster id exist in the `clusters` table afterwards. -/
theorem saveAWSCluster_second_insert_atomic (o : SaveOracle) (st : Storage)
    (c : AWSCluster)
    (hreach : o.marshalClusterErr = false ∧ o.marshalAWSErr = false ∧
      o.compileErr = false ∧ o.beginErr = false ∧ o.execClustersErr = false)
    (hfail : o.execAWSErr = true)
    (hfresh : ∀ r ∈ st.clusters, r.ID ≠ c.cluster.ID) :
    (saveAWSCluster o st c).1 = .error .execErr ∧
    (saveAWSCluster o st c).2 = st ∧
    ∀ r ∈ (saveAWSCluster o st c).2.clusters, r.ID ≠ c.cluster.ID := by
  obtain ⟨h1, h2, h3, h4, h5⟩ := hreach
  have hred : saveAWSCluster o st c = (.error .execErr, st) := by
    simp [saveAWSCluster, h1, h2, h3, h4, h5, hfail]
  rw [hred]
  exact ⟨rfl, rfl, hfresh⟩

/-- Witness for C3: saving `sampleAWS` into empty storage with an injected
failure on the `aws_clusters` insert rolls back, leaving zero `clusters` rows
for its id. -/
theorem saveAWSCluster_second_insert_atomic_witness :
    (saveAWSCluster ⟨false, false, false, false, false, true, false⟩
        emptyStorage sampleAWS).1 = .error .execErr ∧
    (saveAWSCluster ⟨false, false, false, false, false, true, false⟩
        emptyStorage sampleAWS).2 = emptyStorage ∧
    ∀ r ∈ (saveAWSCluster ⟨false, false, false, false, false, true, false⟩
        emptyStorage sampleAWS).2.clusters, r.ID ≠ sampleAWS.cluster.ID :=
  saveAWSCluster_second_insert_atomic _ _ _ ⟨rfl, rfl, rfl, rfl, rfl⟩ rfl
    (by decide)

/-- C1 counterexample: on an installer whose registry and storage are empty,
`FindCluster "a"` does not return `ClusterNotFoundError` — it returns the
driver's no-rows error instead, so the claim as stated is false. -/
theorem findCluster_absent_counterexample :
    FindCluster emptyInstaller "a" = .error (.dbErr .noRows) ∧
    FindCluster emptyInstaller "a" ≠ .error .clusterNotFound := by
  constructor
  · rfl
  · intro h
    rw [show FindCluster emptyInstaller "a" = .error (.dbErr .noRows)
          from rfl] at h
    simp at h

/-- C1 amended: for every id absent from both the in-memory registry and the
`clusters` table, `FindCluster` returns the driver's no-rows error (a
not-found outcome distinct from other storage errors and from the declared,
never-returned `ClusterNotFoundError`), and never returns any cluster value. -/
theorem findCluster_absent_noRows (i : Installer) (id : String)
    (hreg : registryLookup i.clusters id = none)
    (hst : ∀ r ∈ i.storage.clusters, r.ID ≠ id) :
    FindCluster i id = .error (.dbErr .noRows) ∧
    ∀ c : Cluster, FindCluster i id ≠ .ok c := by
  have hfind : i.storage.clusters.find? (fun r => r.ID == id) = none := by
    rw [List.find?_eq_none]
    intro r hr
    simpa using hst r hr
  have heq : FindCluster i id = .error (.dbErr .noRows) := by
    unfold FindCluster
    rw [hreg]
    dsimp only
    rw [hfind]
  refine ⟨heq, fun c h => ?_⟩
  rw [heq] at h
  simp at h

/-- Witness for the amended C1: on the empty installer, `FindCluster "a"`
returns the no-rows error and no cluster. -/
theorem findCluster_absent_noRows_witness :
    FindCluster emptyInstaller "a" = .error (.dbErr .noRows) ∧
    ∀ c : Cluster, FindCluster emptyInstaller "a" ≠ .ok c :=
  findCluster_absent_noRows emptyInstaller "a" rfl (by decide)

end Flynn

namespace Flynn

/-- C5: when `DeleteCluster(id)` returns without error (the registry entries
satisfying the data-model invariant that an `*AWSCluster` entry's `ClusterID`
agrees with its embedded cluster's `ID`), no entry with that id remains in
the registry, an immediately following registry lookup for id misses, the
entries with other ids are kept (in order), a `cluster_deleted` event for id
has been appended to the log, and the persisted rows are untouched. -/
theorem deleteCluster_removes (i : Installer) (id : String) (i2 : Installer)
    (hwf : ∀ e ∈ i.clusters, e.wf = true)
    (h : DeleteCluster i id = (.ok (), i2)) :
    (∀ e ∈ i2.clusters, e.reflectID ≠ id) ∧
    registryLookup i2.clusters id = none ∧
    i2.clusters = i.clusters.filter (fun e => e.reflectID != id) ∧
    i2.events = i.events ++
      [{ EventType := "cluster_deleted", Cluster := none,
         ClusterID := id }] ∧
    i2.storage = i.storage := by
  unfold DeleteCluster at h
  cases hf : FindCluster i id with
  | error e =>
    rw [hf] at h
    simp at h
  | ok c =>
    rw [hf] at h
    dsimp only at h
    simp only [Prod.mk.injEq, true_and] at h
    subst h
    refine ⟨?_, ?_, rfl, rfl, rfl⟩
    · intro e he
      have hm := (List.mem_filter.mp he).2
      simpa using hm
    · apply registryLookup_eq_none
      intro c2 hc2
      have hm := List.mem_filter.mp hc2
      have hwfc : RegEntry.wf (.aws c2) = true := hwf _ hm.1
      have hne : RegEntry.reflectID (.aws c2) ≠ id := by simpa using hm.2
      have hidm : c2.ClusterID = c2.cluster.ID := by
        simpa [RegEntry.wf] using hwfc
      rw [hidm]
      simpa [RegEntry.reflectID] using hne

/-- Witness for C5: deleting `"c1"` from `sampleInstaller` removes the AWS
entry, leaves the unrecognized `"c2"` entry and the storage, and appends the
`cluster_deleted` event. -/
theorem deleteCluster_removes_witness :
    (∀ e ∈ (DeleteCluster sampleInstaller "c1").2.clusters,
        e.reflectID ≠ "c1") ∧
    registryLookup (DeleteCluster sampleInstaller "c1").2.clusters "c1" =
      none ∧
    (DeleteCluster sampleInstaller "c1").2.clusters =
      sampleInstaller.clusters.filter (fun e => e.reflectID != "c1") ∧
    (DeleteCluster sampleInstaller "c1").2.events =
      sampleInstaller.events ++
        [{ EventType := "cluster_deleted", Cluster := none,
           ClusterID := "c1" }] ∧
    (DeleteCluster sampleInstaller "c1").2.storage =
      sampleInstaller.storage :=
  deleteCluster_removes sampleInstaller "c1" _ (by decide) rfl

/-- C7: a (id, secret) pair saved through `SaveAWSCredentials` round-trips
exactly through `FindAWSCredentials`: for every non-reserved id not already
present in the `credentials` table, after the save succeeds the find returns
`aws.Creds(id, secret, "")` built from exactly that pair (reading storage). -/
theorem credentials_roundtrip (o : CredOracle) (env : Env) (st st2 : Storage)
    (id secret : String)
    (hid : id ≠ "aws_env")
    (hfresh : ∀ r ∈ st.credentials, r.ID ≠ id)
    (hsave : SaveAWSCredentials o st id secret = (.ok (), st2)) :
    FindAWSCredentials env st2 id =
      (.ok (.staticCreds id secret ""), true) := by
  rcases o with ⟨b, ex, cm⟩
  cases b <;> cases ex <;> cases cm <;>
    simp only [SaveAWSCredentials, Bool.false_eq_true, if_true, if_false,
      Prod.mk.injEq, reduceCtorEq, false_and, if_neg] at hsave
  obtain ⟨-, hst2⟩ := hsave
  subst hst2
  unfold FindAWSCredentials
  rw [if_neg hid]
  have hfind :
      ({ st with credentials := st.credentials ++ [⟨id, secret⟩] } :
        Storage).credentials.find? (fun r => r.ID == id) =
        some ⟨id, secret⟩ := by
    apply find_first_fresh
    · intro a ha
      simpa using hfresh a ha
    · simp
  rw [hfind]

/-- Witness for C7: saving `("id1", "s1")` into empty storage and finding
`"id1"` yields `aws.Creds("id1", "s1", "")` via a storage read. -/
theorem credentials_roundtrip_witness :
    FindAWSCredentials ⟨"", ""⟩
        (SaveAWSCredentials CredOracle.ok emptyStorage "id1" "s1").2 "id1" =
      (.ok (.staticCreds "id1" "s1" ""), true) :=
  credentials_roundtrip CredOracle.ok ⟨"", ""⟩ emptyStorage _ "id1" "s1"
    (by decide) (by decide) rfl

end Flynn
